import Mathlib

/-!
Verification of the card-data extraction and lesson-assembly core of the
curriculum-designer repository (mcp-server/index.js and the embedded copy in
mcp-server/build-mcp-layer.sh).

The embedding below translates the JavaScript source faithfully:

* `parseCardData` runs the global regex `\[(\w+):\s*([^\]]+)\]` over a card
  description, collects the bracketed key/value tokens into an object whose
  keys are lowercased (a later token overwrites an earlier one with the same
  key), and builds the parsed record with the JS falsy-or defaults
  `data.level || "intermediate"`, `parseInt(data.duration) || 20`,
  `data.category || "general"`, `data.materials || ""`.
* `getActivities` maps `parseCardData` over the fetched cards and applies the
  three truthiness-guarded filters (`if (category) ...`, `if (level) ...`,
  `if (duration) ...`) with strict `===` / `<=` comparisons.
* `suggestLesson` builds the lesson object, sets `warmup` with
  `activities.find(a => a.duration <= 10 && a.tags?.includes("warmup"))`,
  and returns it; the main-activity selection is an unimplemented stub
  (`// ... smart selection logic here`), so `main_activities` stays `[]`
  and `total_duration` stays `0`.
* `formatTitle` / `formatDescription` are the card serializers of the
  importer class in the same file.

Machine numbers are modelled as `Int` (the values in play are small
integers); JS `parseInt` is modelled by `jsParseInt` (leading whitespace,
optional sign, optional hex prefix, maximal digit run, `none` for NaN).
-/

/-- JS `\w` character class: ASCII letters, digits and underscore. -/
def isWordChar (c : Char) : Bool :=
  c.isAlpha || c.isDigit || c = '_'

/-- JS `\s` character class, restricted to the ASCII whitespace characters
(space, tab, line feed, vertical tab, form feed, carriage return); the
inputs in this development contain no exotic Unicode whitespace. -/
def isSpaceJS (c : Char) : Bool :=
  c = ' ' || c = '\t' || c = '\n' || c = '\x0b' || c = '\x0c' || c = '\r'

/-- The tail of a regex match attempt `\[(\w+):\s*([^\]]+)\]` after the `:`:
`\s*` greedily eats whitespace, `([^\]]+)` greedily eats to the next `]`.
When everything between `:` and `]` is whitespace, the greedy `\s*`
backtracks one character so that `[^\]]+` can match it; the capture is then
that single last whitespace character. Returns the captured value and the
input remaining after the closing `]`. -/
def matchValue (key : String) (r2 : List Char) : Option (String × String × List Char) :=
  let pre := r2.takeWhile (fun c => c != ']')
  let r3 := r2.dropWhile (fun c => c != ']')
  match r3 with
  | [] => none
  | c :: rest =>
    if c = ']' then
      if pre = [] then none
      else
        let nonws := pre.dropWhile isSpaceJS
        let valChars := if nonws = [] then pre.drop (pre.length - 1) else nonws
        some (key, String.mk valChars, rest)
    else none

/-- Attempt to match `\[(\w+):\s*([^\]]+)\]` at the head of the input.
Returns the two captures and the input remaining after the match. -/
def matchAt (cs : List Char) : Option (String × String × List Char) :=
  match cs with
  | [] => none
  | c :: r0 =>
    if c = '[' then
      let key := r0.takeWhile isWordChar
      let r1 := r0.dropWhile isWordChar
      if key = [] then none
      else
        match r1 with
        | [] => none
        | c1 :: r2 => if c1 = ':' then matchValue (String.mk key) r2 else none
    else none

/-- The loop `while ((match = regex.exec(card.desc)) !== null)` with a `g`
regex: collect the non-overlapping matches left to right, resuming after
the end of each match. The fuel argument (called with the input length) only
serves termination; every step consumes at least one character. -/
def scan : Nat → List Char → List (String × String)
  | 0, _ => []
  | fuel + 1, cs =>
    match cs with
    | [] => []
    | c :: rest =>
      match matchAt (c :: rest) with
      | some (k, v, after) => (k, v) :: scan fuel after
      | none => scan fuel rest

/-- ASCII lowercasing of a key, as `match[1].toLowerCase()` does for the
`\w+` keys the regex can capture. -/
def asciiLower (s : String) : String :=
  String.mk (s.data.map Char.toLower)

/-- The object built by `data[match[1].toLowerCase()] = match[2]`, kept as
the list of assignments in execution order. -/
def cardData (desc : String) : List (String × String) :=
  (scan desc.data.length desc.data).map (fun p => (asciiLower p.1, p.2))

/-- Property read on the assignment list: the last assignment to a key wins,
`none` when the property was never assigned (JS `undefined`). -/
def getLastVal (m : List (String × String)) (k : String) : Option String :=
  m.foldl (fun acc p => if p.1 = k then some p.2 else acc) none

/-- JS `x || d` for a possibly-undefined string property: `undefined` and
the empty string are falsy. -/
def jsOrStr (o : Option String) (d : String) : String :=
  match o with
  | some s => if s = "" then d else s
  | none => d

/-- JS `x || d` for a number that may be NaN (`none`): NaN and 0 are falsy.
`parseInt("-0")` is `-0`, also falsy, and `Int` has a single zero, so the
`n = 0` test covers it. -/
def jsOrInt (o : Option Int) (d : Int) : Int :=
  match o with
  | some n => if n = 0 then d else n
  | none => d

/-- Value of one ASCII hex digit. -/
def hexDigitVal (c : Char) : Nat :=
  if c.isDigit then c.toNat - 48
  else if 'a' ≤ c then c.toNat - 87
  else c.toNat - 55

/-- JS hex-digit class for `parseInt` with a `0x` prefix. -/
def isHexDigitJS (c : Char) : Bool :=
  c.isDigit || ('a' ≤ c && c ≤ 'f') || ('A' ≤ c && c ≤ 'F')

/-- Maximal leading run of decimal digits, `none` when there is none. -/
def decVal (cs : List Char) : Option Nat :=
  let ds := cs.takeWhile Char.isDigit
  if ds = [] then none
  else some (ds.foldl (fun acc c => acc * 10 + (c.toNat - 48)) 0)

/-- Maximal leading run of hex digits, `none` when there is none. -/
def hexVal (cs : List Char) : Option Nat :=
  let ds := cs.takeWhile isHexDigitJS
  if ds = [] then none
  else some (ds.foldl (fun acc c => acc * 16 + hexDigitVal c) 0)

/-- Magnitude part of JS `parseInt` with unspecified radix: a `0x`/`0X`
prefix switches to hexadecimal, otherwise the maximal decimal digit run is
taken; no digits means NaN. -/
def parseNatPart (cs : List Char) : Option Nat :=
  match cs with
  | '0' :: x :: rest =>
    if x = 'x' ∨ x = 'X' then hexVal rest else decVal ('0' :: x :: rest)
  | _ => decVal cs

/-- JS `parseInt(s)`: skip leading whitespace, optional sign, then the
magnitude; `none` models NaN. -/
def jsParseInt (s : String) : Option Int :=
  let cs := s.data.dropWhile isSpaceJS
  match cs with
  | '-' :: r => (parseNatPart r).map (fun n => -(n : Int))
  | '+' :: r => (parseNatPart r).map (fun n => (n : Int))
  | _ => (parseNatPart cs).map (fun n => (n : Int))

/-- The record returned by `parseCardData`. -/
structure ParsedData where
  level : String
  duration : Int
  category : String
  materials : String
deriving DecidableEq, Repr

/-- Function `parseCardData(card)` of the MCP server: run the global regex
`\[(\w+):\s*([^\]]+)\]` over `card.desc`, collect the tokens into `data`
with lowercased keys, and return the four fields with their falsy-or
defaults. The function reads no other field of the card; in particular the
card title is never consulted. -/
def parseCardData (desc : String) : ParsedData :=
  let data := cardData desc
  { level := jsOrStr (getLastVal data "level") "intermediate"
  , duration := jsOrInt ((getLastVal data "duration").bind jsParseInt) 20
  , category := jsOrStr (getLastVal data "category") "general"
  , materials := (getLastVal data "materials").getD "" }

/-- A JS value as it can reach `parseCardData` in the `desc` field of a
card: a string, an integral number, a boolean, `null`, or `undefined`
(an absent property). -/
inductive JSVal where
  | str (s : String)
  | num (n : Int)
  | boolean (b : Bool)
  | null
  | undef
deriving DecidableEq, Repr

/-- Digit character of a value `k < 10` (the catch-all is unreachable). -/
def digitChar : Nat → Char
  | 0 => '0' | 1 => '1' | 2 => '2' | 3 => '3' | 4 => '4'
  | 5 => '5' | 6 => '6' | 7 => '7' | 8 => '8' | 9 => '9'
  | _ => '0'

/-- Decimal digits of a natural number, most significant first; the fuel
(called with `n + 1`) only serves termination. -/
def natDigits : Nat → Nat → List Char
  | 0, _ => []
  | fuel + 1, n =>
    if n < 10 then [digitChar n]
    else natDigits fuel (n / 10) ++ [digitChar (n % 10)]

/-- Decimal rendering of a natural number. -/
def natToStr (n : Nat) : String :=
  String.mk (natDigits (n + 1) n)

/-- JS number-to-string coercion for integral values. -/
def intToStr (i : Int) : String :=
  if i < 0 then "-" ++ natToStr i.natAbs else natToStr i.toNat

/-- JS string coercion as applied by `RegExp.prototype.exec` to a
non-string argument: `String(undefined) = "undefined"`, `String(null) =
"null"`, booleans and numbers print themselves. -/
def jsToString : JSVal → String
  | .str s => s
  | .num n => intToStr n
  | .boolean b => if b then "true" else "false"
  | .null => "null"
  | .undef => "undefined"

/-- Whether a JS value is a string. -/
def JSVal.isStr : JSVal → Bool
  | .str _ => true
  | _ => false

/-- Behavior of `parseCardData` on a card whose `desc` property holds an arbitrary JS
value: `regex.exec(card.desc)` coerces its argument to a string, so the
function body runs unchanged on `String(desc)`. No type check or
exception path exists in the source. -/
def parseCardDataJS (desc : JSVal) : ParsedData :=
  parseCardData (jsToString desc)

/-- A raw Trello card as the MCP server consumes it: `id`, `name` (title),
`desc`, label names, and the containing list name (`card.list.name`). -/
structure Card where
  id : String
  name : String
  desc : String
  labels : List String
  listName : String
deriving DecidableEq, Repr

/-- The activity object built in `getActivities` for each card. The object
literal has exactly these properties; in particular it has NO `tags`
property (the card labels are never read). -/
structure Activity where
  id : String
  name : String
  description : String
  level : String
  duration : Int
  category : String
  materials : String
  listName : String
deriving DecidableEq, Repr

/-- The per-card mapping step of `getActivities`. -/
def activityOfCard (c : Card) : Activity :=
  let parsed := parseCardData c.desc
  { id := c.id
  , name := c.name
  , description := c.desc
  , level := parsed.level
  , duration := parsed.duration
  , category := parsed.category
  , materials := parsed.materials
  , listName := c.listName }

/-- JS property access `a.tags` on an activity object: the object literal
built in `getActivities` never assigns a `tags` property, so the access
yields `undefined` for every activity. -/
def Activity.tags (_ : Activity) : Option (List String) := none

/-- The pure core of `getActivities({category, level, duration})` applied
to the fetched card list: map `parseCardData` over the cards, then apply
each filter only when its argument is truthy (`if (category)`,
`if (level)`, `if (duration)`); an absent argument and a falsy one
(empty string, `0`) behave identically. Comparisons are the strict `===`
of the source. -/
def getActivitiesPure (cards : List Card) (category level : String) (duration : Int) :
    List Activity :=
  let activities := cards.map activityOfCard
  let f1 := if category = "" then activities
    else activities.filter (fun a => a.category == category)
  let f2 := if level = "" then f1
    else f1.filter (fun a => a.level == level)
  if duration = 0 then f2
  else f2.filter (fun a => decide (a.duration ≤ duration))

/-- The lesson object of `suggestLesson`. `warmup`/`cooldown` are `none`
when the JS fields are `null`/`undefined`. -/
structure Lesson where
  warmup : Option Activity
  main_activities : List Activity
  cooldown : Option Activity
  total_duration : Int
deriving DecidableEq, Repr

/-- The warmup search predicate
`a => a.duration <= 10 && a.tags?.includes("warmup")`: the optional chain
yields `undefined` when `a.tags` is `undefined`, which is falsy. -/
def warmupPred (a : Activity) : Bool :=
  decide (a.duration ≤ 10) &&
    (match a.tags with
     | some ts => ts.contains "warmup"
     | none => false)

/-- The pure core of
`suggestLesson({student_level, focus_area, total_duration})`: fetch the
activities filtered by level only, initialize the lesson object, set
`warmup` by `activities.find(...)`, and return. The main-activity
selection after `const mainTime = total_duration - 20` is an unimplemented
stub in the source (`// ... smart selection logic here`), so
`main_activities`, `cooldown` and `total_duration` keep their initial
values; `focus_area` and `total_duration` are never used. -/
def suggestLessonPure (cards : List Card) (student_level : String)
    (focus_area : String) (total_duration : Int) : Lesson :=
  let activities := getActivitiesPure cards "" student_level 0
  { warmup := activities.find? warmupPred
  , main_activities := []
  , cooldown := none
  , total_duration := 0 }

/-- The activity shape consumed by the importer serializers
(`formatTitle` / `formatDescription`). Properties that the source guards
with `||` or `?.` are modelled as `Option` or defaulted strings. -/
structure ImportActivity where
  name : String
  level : String
  duration : Int
  category : String
  energy : Option String
  interaction : Option String
  skills : List String
  professions : Option (List String)
  objectives : List String
  materials : String
  instructions : String
  variations : String
  notes : String
deriving DecidableEq, Repr

/-- Function `formatTitle(activity)` of the importer:
the template literal `[Nm] name | category`. -/
def formatTitle (a : ImportActivity) : String :=
  "[" ++ intToStr a.duration ++ "m] " ++ a.name ++ " | " ++ a.category

/-- Function `formatDescription(activity)` of the importer: the multi-line template
with `KEY: value` lines (no brackets), `||` defaults for energy,
interaction, profession, materials, variations and notes, and the
objectives rendered as `- item` lines. -/
def formatDescription (a : ImportActivity) : String :=
  "LEVEL: " ++ a.level ++
  "\nDURATION: " ++ intToStr a.duration ++
  "\nENERGY: " ++ jsOrStr a.energy "Medium" ++
  "\nINTERACTION: " ++ jsOrStr a.interaction "Pairs" ++
  "\nSKILLS: " ++ String.intercalate ", " a.skills ++
  "\nPROFESSION: " ++
    jsOrStr (a.professions.map (String.intercalate ", ")) "General" ++
  "\n\nOBJECTIVES:\n" ++
    String.intercalate "\n" (a.objectives.map (fun obj => "- " ++ obj)) ++
  "\n\nMATERIALS:\n" ++ (if a.materials = "" then "- None required" else a.materials) ++
  "\n\nINSTRUCTIONS:\n" ++ a.instructions ++
  "\n\nVARIATIONS:\n" ++ (if a.variations = "" then "None yet" else a.variations) ++
  "\n\nNOTES:\n" ++ (if a.notes = "" then "No notes yet" else a.notes)

/-- The closed level enumeration of the data model. -/
def levelEnum : List String :=
  ["Beginner", "Elementary", "Intermediate", "Upper-Intermediate", "Advanced"]

/-- Decidable side condition for the amended duration invariant: the
`Duration` token value, when present and parseable, is nonnegative. -/
def durValOk (desc : String) : Bool :=
  match getLastVal (cardData desc) "duration" with
  | some v =>
    match jsParseInt v with
    | some n => decide (0 ≤ n)
    | none => true
  | none => true

theorem matchAt_cons_ne (c : Char) (cs : List Char) (h : c ≠ '[') :
    matchAt (c :: cs) = none := by
  simp [matchAt, h]

theorem scan_eq_nil (fuel : Nat) (cs : List Char) (h : '[' ∉ cs) :
    scan fuel cs = [] := by
  induction fuel generalizing cs with
  | zero => rfl
  | succ n ih =>
    cases cs with
    | nil => rfl
    | cons c rest =>
      have hc : c ≠ '[' := fun hc => h (hc ▸ List.mem_cons_self c rest)
      have hrest : '[' ∉ rest := fun hm => h (List.mem_cons_of_mem c hm)
      simp only [scan, matchAt_cons_ne c rest hc]
      exact ih rest hrest

theorem parseCardData_default_of_no_bracket (s : String) (h : '[' ∉ s.data) :
    parseCardData s =
      { level := "intermediate", duration := 20, category := "general", materials := "" } := by
  have hs : ∀ fuel, scan fuel s.data = [] := fun fuel => scan_eq_nil fuel s.data h
  simp [parseCardData, cardData, hs, getLastVal, jsOrStr, jsOrInt]

theorem digitChar_ne_bracket (k : Nat) : digitChar k ≠ '[' := by
  unfold digitChar
  split <;> decide

theorem natDigits_ne_bracket (fuel n : Nat) :
    ∀ c ∈ natDigits fuel n, c ≠ '[' := by
  induction fuel generalizing n with
  | zero => simp [natDigits]
  | succ f ih =>
    intro c hc
    simp only [natDigits] at hc
    by_cases hn : n < 10
    · simp [hn] at hc
      exact hc ▸ digitChar_ne_bracket n
    · simp [hn, List.mem_append] at hc
      rcases hc with hc | hc
      · exact ih (n / 10) c hc
      · exact hc ▸ digitChar_ne_bracket (n % 10)

theorem intToStr_no_bracket (i : Int) : '[' ∉ (intToStr i).data := by
  unfold intToStr natToStr
  split
  · intro hm
    have hdata : ("-" ++ String.mk (natDigits (i.natAbs + 1) i.natAbs)).data =
        '-' :: natDigits (i.natAbs + 1) i.natAbs := rfl
    rw [hdata] at hm
    rcases List.mem_cons.mp hm with h | h
    · exact absurd h (by decide)
    · exact natDigits_ne_bracket _ _ '[' h rfl
  · intro hm
    exact natDigits_ne_bracket _ _ '[' hm rfl

theorem warmupPred_false (a : Activity) : warmupPred a = false := by
  simp [warmupPred, Activity.tags]

theorem find_warmup_none (l : List Activity) : l.find? warmupPred = none := by
  simp [List.find?_eq_none, warmupPred_false]


/-- Tie-in between the option fields of a lesson and the duration sum. -/
def optDur (o : Option Activity) : Int :=
  match o with
  | some a => a.duration
  | none => 0

/-- Sum of the durations of a list of activities. -/
def sumDur (l : List Activity) : Int :=
  (l.map Activity.duration).sum

/-- The three-card catalog of the scenario claim: an Intermediate 10-minute
card labelled warmup, then Intermediate cards of 25 and 30 minutes. -/
def c3Warmup : Card :=
  { id := "a1", name := "Quick Icebreaker"
  , desc := "[Level: Intermediate] [Duration: 10]"
  , labels := ["warmup"], listName := "Ready" }

/-- Second card of the scenario catalog. -/
def c3Main25 : Card :=
  { id := "a2", name := "Roleplay"
  , desc := "[Level: Intermediate] [Duration: 25]"
  , labels := [], listName := "Ready" }

/-- Third card of the scenario catalog. -/
def c3Main30 : Card :=
  { id := "a3", name := "Debate"
  , desc := "[Level: Intermediate] [Duration: 30]"
  , labels := [], listName := "Ready" }

/-- Card used to exhibit the case-sensitivity of the category filter. -/
def c6Card : Card :=
  { id := "g1", name := "Conditionals Practice"
  , desc := "[Category: Grammar] [Level: Intermediate]"
  , labels := [], listName := "Ready" }

/-- A fully concrete activity for the serialization round trip. -/
def c7Activity : ImportActivity :=
  { name := "Roleplay", level := "Advanced", duration := 30
  , category := "Grammar", energy := none, interaction := none
  , skills := ["Speaking"], professions := none
  , objectives := ["Practice disagreeing politely"], materials := ""
  , instructions := "Pair students", variations := "", notes := "" }

/-- C1: on a card in the format documented by trello-card-template.md (a
plain `DURATION: 25` line in the description and a `[25m]` duration marker
in the title), `parseCardData` returns the default duration 20 instead of
the claimed 25: it extracts only bracketed `[Key: Value]` tokens from the
description and never consults the title. The second conjunct shows the
bracketed form is what the code actually reads. -/
theorem c1_documented_format_yields_default :
    (activityOfCard
      { id := "c1", name := "[25m] Restaurant Complaints Roleplay | Speaking"
      , desc := "LEVEL: Intermediate\nDURATION: 25"
      , labels := [], listName := "Ready to Use" }).duration = 20 ∧
    (parseCardData "[Duration: 25]").duration = 25 := by
  decide

/-- C2: counterexample to the closed level enumeration: a card whose
description holds `[Level: banana]` parses to the arbitrary string
`banana`, which is not a member of the enumeration. -/
theorem c2_counterexample_raw_level :
    (parseCardData "[Level: banana]").level = "banana" ∧
    "banana" ∉ levelEnum := by
  decide

/-- C2 (amended): the level field is the raw value of the last bracketed
`[Level: ...]` token when one exists (any nonempty string, unnormalized),
and the literal `intermediate` when none exists. -/
theorem c2_amended_level_passthrough (desc : String) :
    (getLastVal (cardData desc) "level" = none →
      (parseCardData desc).level = "intermediate") ∧
    ∀ v, getLastVal (cardData desc) "level" = some v → v ≠ "" →
      (parseCardData desc).level = v := by
  constructor
  · intro h
    simp [parseCardData, jsOrStr, h]
  · intro v h hv
    simp [parseCardData, jsOrStr, h, hv]

/-- Witness for the amended C2 at concrete cards. -/
theorem c2_amended_level_passthrough_witness :
    (parseCardData "[Level: banana] extra text").level = "banana" ∧
    (parseCardData "No level data here").level = "intermediate" :=
  ⟨(c2_amended_level_passthrough "[Level: banana] extra text").2 "banana"
      (by decide) (by decide),
   (c2_amended_level_passthrough "No level data here").1 (by decide)⟩

/-- C3: on the scenario catalog (Intermediate cards of 10, 25, 30 minutes,
the first labelled warmup), `suggestLesson` returns no warmup, an empty
main-activity list and total duration 0 — not the claimed plan with the
10-minute warmup, the 25-minute main activity and total 35. The selection
logic is an unimplemented stub and the parsed activity objects carry no
tags, so the warmup search never matches. The trailing conjuncts check the
catalog really consists of the claimed records. -/
theorem c3_stub_returns_empty_plan :
    suggestLessonPure [c3Warmup, c3Main25, c3Main30] "Intermediate" "" 60 =
      { warmup := none, main_activities := [], cooldown := none, total_duration := 0 } ∧
    (activityOfCard c3Warmup).duration = 10 ∧
    (activityOfCard c3Main25).duration = 25 ∧
    (activityOfCard c3Main30).duration = 30 ∧
    (activityOfCard c3Warmup).level = "Intermediate" ∧
    c3Warmup.labels = ["warmup"] := by
  decide

/-- C4: for every catalog, level, focus category and nonnegative duration
budget, the lesson returned by `suggestLesson` has `total_duration` equal
to the sum of the durations of its included warmup, main activities and
cooldown, and `total_duration` does not exceed the budget. (The code
satisfies this degenerately: the returned plan is always empty with total
0.) -/
theorem c4_total_within_budget (cards : List Card) (lvl focus : String)
    (tgt : Int) (h : 0 ≤ tgt) :
    (suggestLessonPure cards lvl focus tgt).total_duration =
        optDur (suggestLessonPure cards lvl focus tgt).warmup +
        sumDur (suggestLessonPure cards lvl focus tgt).main_activities +
        optDur (suggestLessonPure cards lvl focus tgt).cooldown ∧
    (suggestLessonPure cards lvl focus tgt).total_duration ≤ tgt := by
  refine ⟨?_, ?_⟩ <;>
    simp [suggestLessonPure, find_warmup_none, optDur, sumDur, h]

/-- Witness for C4 at a concrete catalog and budget. -/
theorem c4_total_within_budget_witness :
    (0 : Int) ≤ 45 ∧
    ((suggestLessonPure [c3Warmup] "Beginner" "" 45).total_duration =
        optDur (suggestLessonPure [c3Warmup] "Beginner" "" 45).warmup +
        sumDur (suggestLessonPure [c3Warmup] "Beginner" "" 45).main_activities +
        optDur (suggestLessonPure [c3Warmup] "Beginner" "" 45).cooldown ∧
      (suggestLessonPure [c3Warmup] "Beginner" "" 45).total_duration ≤ 45) :=
  ⟨by decide, c4_total_within_budget [c3Warmup] "Beginner" "" 45 (by decide)⟩

/-- C5: counterexample to strict positivity: the description
`[Duration: -5]` has a duration value that `parseInt` parses to the
negative number -5, which is truthy in JS and is returned as is. -/
theorem c5_counterexample_negative_duration :
    (parseCardData "[Duration: -5]").duration = -5 ∧
    ¬ 0 < (parseCardData "[Duration: -5]").duration := by
  decide

/-- C5 (amended): the parsed duration is strictly positive for every card
whose bracketed Duration value, when present and parseable, is
nonnegative: absence, an unparseable value, and the (falsy) value 0 all
resolve to the default 20; only a parseable negative value escapes the
invariant. -/
theorem c5_amended_duration_positive (desc : String) (h : durValOk desc = true) :
    0 < (parseCardData desc).duration := by
  unfold durValOk at h
  cases hd : getLastVal (cardData desc) "duration" with
  | none => simp [parseCardData, jsOrInt, hd]
  | some v =>
    cases hp : jsParseInt v with
    | none => simp [parseCardData, jsOrInt, hd, hp]
    | some n =>
      simp only [hd, hp, decide_eq_true_eq] at h
      simp only [parseCardData, jsOrInt, hd, Option.some_bind, hp]
      split
      · decide
      · omega

/-- Witness for the amended C5 at a concrete card. -/
theorem c5_amended_duration_positive_witness :
    durValOk "[Duration: 25]" = true ∧
    0 < (parseCardData "[Duration: 25]").duration :=
  ⟨by decide, c5_amended_duration_positive "[Duration: 25]" (by decide)⟩

/-- C6: counterexample to case-insensitive matching: filtering the
one-card catalog whose parsed category is `Grammar` by the argument
`grammar` removes the record, although the two strings agree up to letter
case, because the source compares with the strict `===`. -/
theorem c6_counterexample_case_sensitive :
    getActivitiesPure [c6Card] "grammar" "" 0 = [] ∧
    asciiLower (activityOfCard c6Card).category = asciiLower "grammar" := by
  decide

/-- C6 (amended): for every catalog and nonempty category argument, the
category filter keeps exactly the records whose category is strictly
(case-sensitively) equal to the argument, returning a new filtered
sequence; the input catalog is untouched (the embedding is pure). -/
theorem c6_amended_exact_filter (cards : List Card) (cat : String) (h : cat ≠ "") :
    getActivitiesPure cards cat "" 0 =
      (cards.map activityOfCard).filter (fun a => a.category == cat) := by
  simp [getActivitiesPure, h]

/-- Witness for the amended C6 at a concrete catalog. -/
theorem c6_amended_exact_filter_witness :
    ("Grammar" : String) ≠ "" ∧
    getActivitiesPure [c6Card] "Grammar" "" 0 =
      ([c6Card].map activityOfCard).filter (fun a => a.category == "Grammar") :=
  ⟨by decide, c6_amended_exact_filter [c6Card] "Grammar" (by decide)⟩

set_option maxRecDepth 8192 in
/-- C7: serializing an activity with the repository's own
`formatTitle`/`formatDescription` (plain `KEY: value` lines) and parsing
the result with `parseCardData` (which reads only bracketed
`[Key: Value]` tokens) yields the fully defaulted record: level,
duration and category of the original are all lost, so the round trip
preserves essentially no field. -/
theorem c7_roundtrip_loses_fields :
    (parseCardData (formatDescription c7Activity)).level = "intermediate" ∧
    (parseCardData (formatDescription c7Activity)).duration = 20 ∧
    (parseCardData (formatDescription c7Activity)).category = "general" ∧
    c7Activity.level ≠ (parseCardData (formatDescription c7Activity)).level ∧
    c7Activity.duration ≠ (parseCardData (formatDescription c7Activity)).duration ∧
    c7Activity.category ≠ (parseCardData (formatDescription c7Activity)).category ∧
    (activityOfCard
      { id := "imported", name := formatTitle c7Activity
      , desc := formatDescription c7Activity
      , labels := [], listName := "Grammar" }).duration = 20 := by
  decide

/-- C8: counterexample to fail-fast validation: calling `parseCardData` on
a card whose `desc` property is absent (`undefined`) raises no
invalid-argument signal; the regex engine coerces the value to the string
`undefined` and the call silently returns the fully defaulted record. -/
theorem c8_counterexample_silent_default :
    parseCardDataJS JSVal.undef =
      { level := "intermediate", duration := 20, category := "general"
      , materials := "" } := by
  decide

/-- C8 (amended): `parseCardData` performs no input validation: for every
non-string `desc` value (absent, null, boolean or integral number) the
value is coerced to its string form, which contains no bracketed token,
and the call silently returns the fully defaulted record instead of
failing. -/
theorem c8_amended_nonstring_coerced (v : JSVal) (h : v.isStr = false) :
    parseCardDataJS v =
      { level := "intermediate", duration := 20, category := "general"
      , materials := "" } := by
  cases v with
  | str s => simp [JSVal.isStr] at h
  | num n => exact parseCardData_default_of_no_bracket (intToStr n) (intToStr_no_bracket n)
  | boolean b => cases b <;> decide
  | null => decide
  | undef => decide

/-- Witness for the amended C8 at the concrete value null. -/
theorem c8_amended_nonstring_coerced_witness :
    JSVal.null.isStr = false ∧
    parseCardDataJS JSVal.null =
      { level := "intermediate", duration := 20, category := "general"
      , materials := "" } :=
  ⟨by decide, c8_amended_nonstring_coerced JSVal.null (by decide)⟩

/-- C9: for every card list, student level, focus area and total duration,
`suggestLesson` returns the lesson with no warmup, empty main activities,
no cooldown and total duration 0: the activity objects built by
`getActivities` carry no tags property, so the warmup predicate never
matches, and the main-activity selection is an unimplemented stub. -/
theorem c9_lesson_always_empty (cards : List Card) (lvl focus : String) (tgt : Int) :
    suggestLessonPure cards lvl focus tgt =
      { warmup := none, main_activities := [], cooldown := none
      , total_duration := 0 } := by
  simp [suggestLessonPure, find_warmup_none]

/-- C10: for every card collection, calling `getActivities` with the falsy
filter arguments (empty category, empty level, maximum duration 0) skips
all three filters and returns every parsed activity, rather than the
empty list a literal `duration <= 0` filter would produce. -/
theorem c10_falsy_filters_skipped (cards : List Card) :
    getActivitiesPure cards "" "" 0 = cards.map activityOfCard := by
  simp [getActivitiesPure]
